import Mathlib

/-!
Shallow embedding of the RedditXplorer Flask service.

The repository consists of:
  * `app/reddit_app/models/Post.py` — the `Post` data-transfer object;
  * `app/reddit_app/utilities/helper_functions.py` — `create_reddit_loader`,
    `create_post_summary_from_document`, `create_post`, `create_reddit_instance`,
    `embed_post`, `format_documents`, `reply_to_message`;
  * `app/reddit_app/controllers/PostController.py` and
    `app/reddit_app/controllers/post_controller.py` — two Flask blueprints, both
    named `post_controller` with url_prefix `/reddit`, with different routes;
  * `app/__init__.py` — `create_app`, which registers `reddit_bp` (from
    `app/reddit_app/__init__.py`) and the blueprint imported from
    `PostController.py`; the blueprint of `post_controller.py` is never registered;
  * `run.py`, `app/reddit_app/utilities/rag.py` — entry point and a standalone script.

Python runtime values are embedded as `PyVal`; exceptions as `PyErr` carried in
`Except`. External SDK behaviour (praw, LangChain, Pinecone, OpenAI) is an
oracle environment passed to each function: every SDK call site in the source
becomes one oracle field, which may return any value or raise, and the
embedding sequences the call sites in the source's evaluation order.
-/

/-- A Python runtime value, restricted to the shapes this service handles:
`None`, strings, ints, bools, lists and string-keyed dicts. -/
inductive PyVal where
  | none : PyVal
  | str : String → PyVal
  | int : Int → PyVal
  | bool : Bool → PyVal
  | list : List PyVal → PyVal
  | dict : List (String × PyVal) → PyVal

/-- A Python exception: `KeyError` (dict / `os.environ` subscript on a missing
key), `ValueError` (e.g. `int()` on a malformed string), `TypeError`
(e.g. wrong call arity, `str.join` over non-strings), or whatever an external
SDK call raises (carried opaquely with the name of the failing operation). -/
inductive PyErr where
  | keyError (key : String)
  | valueError
  | typeError
  | sdkError (name : String)
deriving Repr, DecidableEq

mutual

/-- Python `repr` on `PyVal` (strings quoted, `None`/`True`/`False` spelled as
in Python, lists bracketed, dicts braced). -/
def pyRepr : PyVal → String
  | .none => "None"
  | .str s => "'" ++ s ++ "'"
  | .int n => toString n
  | .bool b => if b then "True" else "False"
  | .list vs => "[" ++ String.intercalate ", " (pyReprList vs) ++ "]"
  | .dict kvs => "\x7b" ++ String.intercalate ", " (pyReprDict kvs) ++ "\x7d"

def pyReprList : List PyVal → List String
  | [] => []
  | v :: vs => pyRepr v :: pyReprList vs

def pyReprDict : List (String × PyVal) → List String
  | [] => []
  | (k, v) :: kvs => ("'" ++ k ++ "': " ++ pyRepr v) :: pyReprDict kvs

end

/-- Python `str()` on a `PyVal`: the string itself for strings, `repr`
otherwise (which matches `str` on `None`, ints, bools, lists and dicts).
The source applies it to post-author values via `str(...)` and inside
f-strings. -/
def pyStr : PyVal → String
  | .str s => s
  | v => pyRepr v

/-- First binding of `key` in an association list — Python dicts keep one
binding per key, so on dicts built by this program this is dict lookup. -/
def dictFind? : List (String × PyVal) → String → Option PyVal
  | [], _ => Option.none
  | (k, v) :: rest, key => if k = key then some v else dictFind? rest key

/-- Python `d[key]`: the value, or `KeyError` when absent. -/
def dictGet (d : List (String × PyVal)) (key : String) : Except PyErr PyVal :=
  match dictFind? d key with
  | some v => .ok v
  | Option.none => .error (.keyError key)

/-- Python `d.get(key, default)` (and `d.get(key)` with `default = PyVal.none`). -/
def dictGetD (d : List (String × PyVal)) (key : String) (dflt : PyVal) : PyVal :=
  (dictFind? d key).getD dflt

/-- `os.environ` lookup: `os.environ[key]` raises `KeyError` when unset. -/
def envGet (env : List (String × String)) (key : String) : Except PyErr String :=
  match env.find? (fun kv => kv.1 = key) with
  | some kv => .ok kv.2
  | Option.none => .error (.keyError key)

/-- Flask `request.args.get(key)`: first binding of the query parameter. -/
def argsGet? : List (String × String) → String → Option String
  | [], _ => Option.none
  | (k, v) :: rest, key => if k = key then some v else argsGet? rest key

/-- Flask `request.args.get(key, default)` with a string default. -/
def argsGetD (args : List (String × String)) (key : String) (dflt : String) : String :=
  (argsGet? args key).getD dflt

/-- Digits-only parse used by `pyInt`: `some n` iff the character list is a
non-empty run of decimal digits. -/
def natOfDigits? (cs : List Char) : Option Nat :=
  match cs with
  | [] => Option.none
  | _ => cs.foldl
      (fun acc c => acc.bind (fun n => if c.isDigit then some (10 * n + (c.toNat - 48)) else Option.none))
      (some 0)

/-- Leading and trailing whitespace removed, as Python `int()` does before
parsing (structural on the character list, unlike `String.trim`). -/
def stripChars (cs : List Char) : List Char :=
  ((cs.dropWhile Char.isWhitespace).reverse.dropWhile Char.isWhitespace).reverse

/-- Splitting a character list at every occurrence of `sep`, Python
`str.split(sep)` style: no collapsing, so an empty input gives `[[]]`. -/
def splitOnChar (sep : Char) : List Char → List (List Char)
  | [] => [[]]
  | c :: rest =>
    if c = sep then [] :: splitOnChar sep rest
    else
      match splitOnChar sep rest with
      | [] => [[c]]
      | g :: gs => (c :: g) :: gs

/-- Python `s.split(',')`. -/
def pySplitComma (s : String) : List String :=
  (splitOnChar ',' s.toList).map (fun g => String.mk g)

/-- Python `int(s)` on a decimal string: surrounding whitespace stripped, an
optional sign, then a non-empty digit run; anything else raises `ValueError`. -/
def pyInt (s : String) : Except PyErr Int :=
  match stripChars s.toList with
  | '+' :: cs =>
    match natOfDigits? cs with
    | some n => .ok (n : Int)
    | Option.none => .error .valueError
  | '-' :: cs =>
    match natOfDigits? cs with
    | some n => .ok (-(n : Int))
    | Option.none => .error .valueError
  | cs =>
    match natOfDigits? cs with
    | some n => .ok (n : Int)
    | Option.none => .error .valueError

/-- All elements of a Python list as strings, or `none` if one is not a string. -/
def allStr? : List PyVal → Option (List String)
  | [] => some []
  | .str s :: vs => (allStr? vs).map (fun ss => s :: ss)
  | _ => Option.none

/-- Python `' '.join(v)`: joins an iterable of strings with single spaces — a
list of strings, or a string (iterated character by character); any other
value, or a list with a non-string element, raises `TypeError`. -/
def pyJoinSpace : PyVal → Except PyErr String
  | .list vs =>
    match allStr? vs with
    | some ss => .ok (String.intercalate " " ss)
    | Option.none => .error .typeError
  | .str s => .ok (String.intercalate " " (s.toList.map (fun c => String.mk [c])))
  | _ => .error .typeError

/-- `(x >>= f) = .ok b` in `Except` iff `x` succeeded and `f` then succeeded.
Workhorse for peeling the straight-line handler bodies. -/
theorem ebind_ok {ε α β : Type} {x : Except ε α} {f : α → Except ε β} {b : β} :
    (x >>= f) = .ok b ↔ ∃ a, x = .ok a ∧ f a = .ok b := by
  cases x <;> simp [Bind.bind, Except.bind]

/-- `.error` on the left of a bind propagates unchanged. -/
theorem ebind_err {ε α β : Type} {e : ε} {f : α → Except ε β} :
    ((Except.error e : Except ε α) >>= f) = .error e := rfl

/-! ### `app/reddit_app/models/Post.py` -/

/-- The `Post` class: six instance attributes, set verbatim by `__init__`.
The Python annotations (`str`, `int | None`, `list[str] | None`, …) are hints
only; at runtime each attribute holds whatever value was passed, so the fields
are `PyVal`. `__init__` defaults `upvotes`, `username`, `body`, `comments` to
`None`, which call sites of the embedding pass explicitly. -/
structure Post where
  post_id : PyVal
  title : PyVal
  upvotes : PyVal
  username : PyVal
  body : PyVal
  comments : PyVal

/-- `Post.to_dict`: the six attributes under their literal key names, in the
source's order. -/
def Post.to_dict (p : Post) : List (String × PyVal) :=
  [("post_id", p.post_id), ("title", p.title), ("upvotes", p.upvotes),
   ("username", p.username), ("body", p.body), ("comments", p.comments)]

/-- Whether a `PyVal` is Python `None`. -/
def PyVal.isNone : PyVal → Bool
  | .none => true
  | _ => false

/-- `true` iff some attribute of the post is `None`. -/
def Post.hasNoneField (p : Post) : Bool :=
  p.post_id.isNone || p.title.isNone || p.upvotes.isNone ||
  p.username.isNone || p.body.isNone || p.comments.isNone

/-! ### `app/reddit_app/utilities/helper_functions.py` -/

/-- A LangChain `Document`: page content plus a metadata dict. The Reddit
loader (`app/reddit_app/utilities/reddit_loader.py`, imported by the helpers)
produces these; the embedding treats any document as possible loader output. -/
structure Document where
  page_content : String
  metadata : List (String × PyVal)

/-- `create_post_summary_from_document(doc)`: builds a `Post` from the four
metadata entries `post_id`, `post_title`, `post_score`, `post_author`
(each subscript may raise `KeyError`), with `username = str(post_author)`;
`body` and `comments` take `__init__`'s `None` defaults. -/
def create_post_summary_from_document (doc : Document) : Except PyErr Post := do
  let pid ← dictGet doc.metadata "post_id"
  let title ← dictGet doc.metadata "post_title"
  let score ← dictGet doc.metadata "post_score"
  let author ← dictGet doc.metadata "post_author"
  pure ⟨pid, title, score, .str (pyStr author), .none, .none⟩

/-- `create_post(**kwargs)`: builds a `Post` with `kwargs.get` defaults —
empty string for `post_id`/`post_title`/`post_body`, `0` for `post_score`,
`str(kwargs.get('post_author', ''))` for `username`, `[]` for `post_comments`. -/
def create_post (kwargs : List (String × PyVal)) : Post :=
  ⟨dictGetD kwargs "post_id" (.str ""),
   dictGetD kwargs "post_title" (.str ""),
   dictGetD kwargs "post_score" (.int 0),
   .str (pyStr (dictGetD kwargs "post_author" (.str ""))),
   dictGetD kwargs "post_body" (.str ""),
   dictGetD kwargs "post_comments" (.list [])⟩

/-- A chunk `Document` built inside `embed_post`: `page_content` is the chunk,
metadata holds the post's `upvotes` and `title` values. -/
structure EmbDoc where
  page_content : String
  upvotes : PyVal
  title : PyVal

/-- One SDK call site inside `embed_post`, in source order:
`OpenAIEmbeddings(...)`, `PineconeVectorStore.from_existing_index(...)`,
`describe_index_stats()`, `index.delete(delete_all=True)`,
`text_splitter.split_text(...)`, `index.add_documents(...)`. -/
inductive SdkCall where
  | mkEmbeddings
  | fromExistingIndex (indexName : String)
  | describeIndexStats
  | deleteAll
  | splitText (content : String)
  | addDocuments (docs : List EmbDoc)

/-- Oracle environment for `embed_post`: `os.environ` plus the observable
behaviour of each SDK call site, each of which may raise. `describe_stats`
is the `['total_vector_count']` field of `describe_index_stats()`. -/
structure EmbedEnv where
  environ : List (String × String)
  mk_embeddings : String → Except PyErr Unit
  from_existing_index : String → Except PyErr Unit
  describe_stats : Except PyErr Nat
  delete_all : Except PyErr Unit
  split_text : String → Except PyErr (List String)
  add_documents : List EmbDoc → Except PyErr Unit

/-- The guarded clearing step of `embed_post`: `index.delete(delete_all=True)`
exactly when `describe_index_stats()['total_vector_count'] > 0`. -/
def clear_existing_vectors (env : EmbedEnv) (count : Nat) : Except PyErr Unit :=
  if count > 0 then env.delete_all else pure ()

/-- `embed_post(post)`: create the embeddings client (reading
`OPENAI_API_KEY`), open the existing Pinecone index (reading `INDEX_NAME`),
read the index stats, delete all vectors when `total_vector_count > 0`, build
`"Title: {post['title']}\nBody: {post['body']}\nComments: {' '.join(post['comments'])}"`,
split it into chunks, wrap each chunk in a `Document` with `upvotes`/`title`
metadata, add the documents to the store, and return `True`. The result also
carries the trace of SDK call sites reached, for reasoning about the call
sequence; the Python function returns just the boolean. -/
def embed_post (env : EmbedEnv) (post : List (String × PyVal)) :
    Except PyErr (List SdkCall × Bool) := do
  let key ← envGet env.environ "OPENAI_API_KEY"
  let _ ← env.mk_embeddings key
  let indexName ← envGet env.environ "INDEX_NAME"
  let _ ← env.from_existing_index indexName
  let count ← env.describe_stats
  let _ ← clear_existing_vectors env count
  let tr1 : List SdkCall := [.mkEmbeddings, .fromExistingIndex indexName, .describeIndexStats]
      ++ (if count > 0 then [SdkCall.deleteAll] else [])
  let title ← dictGet post "title"
  let body ← dictGet post "body"
  let commentsVal ← dictGet post "comments"
  let joined ← pyJoinSpace commentsVal
  let content := "Title: " ++ pyStr title ++ "\nBody: " ++ pyStr body ++ "\nComments: " ++ joined
  let chunks ← env.split_text content
  let upvotes ← dictGet post "upvotes"
  let documents := chunks.map (fun chunk => EmbDoc.mk chunk upvotes title)
  let _ ← env.add_documents documents
  pure (tr1 ++ [.splitText content, .addDocuments documents], true)

/-- `format_documents(documents)`: concatenates the page contents with blank
lines (used as the retriever post-processor in the custom RAG chain). -/
def format_documents (documents : List Document) : String :=
  String.intercalate "\n\n" (documents.map (fun doc => doc.page_content))

/-- The `rag_chain` prompt template literal in `reply_to_message`. -/
def rag_template : String :=
  "Use the following pieces of context to answer the question at the end. If you don't know the answer, just say that you don't know. \n    Use 3 sentences maximum and keep the answer concise.\n\n    {context}\n\n    Question: {question}\n\n    Helpful Answer:"

/-- An LLM chat message result (`result.content` is read off it). -/
structure AIMsg where
  content : PyVal

/-- Oracle environment for `reply_to_message`: `os.environ` plus each SDK call
site — `OpenAIEmbeddings(...)`, `ChatOpenAI(model=...)`,
`PineconeVectorStore(...)`, `hub.pull(...)`, `retrieval_chain.invoke(...)`
(given the query; returns the result dict), and `rag_chain.invoke(...)` (given
the prompt template and the query; returns the model message). The pure chain
constructions (`create_stuff_documents_chain`, `create_retrieval_chain`,
`PromptTemplate.from_template`, the `|` compositions) build closures whose
eventual behaviour the two invoke oracles carry. -/
structure ChatEnv where
  environ : List (String × String)
  mk_embeddings : String → Except PyErr Unit
  mk_llm : String → Except PyErr Unit
  mk_vectorstore : String → Except PyErr Unit
  hub_pull : String → Except PyErr Unit
  retrieval_invoke : PyVal → Except PyErr (List (String × PyVal))
  rag_invoke : String → PyVal → Except PyErr AIMsg

/-- `reply_to_message(message)`: one parameter. Creates the embeddings client
and `ChatOpenAI(model="gpt-4o-mini")`, opens the Pinecone store (reading
`INDEX_NAME`), pulls `"langchain-ai/retrieval-qa-chat"` from the hub, invokes
the retrieval chain on `{"input": query}` and reads `result["answer"]`
(printed in the source), then invokes the custom RAG chain on the query and
returns `result.content`. -/
def reply_to_message (env : ChatEnv) (message : PyVal) : Except PyErr PyVal := do
  let key ← envGet env.environ "OPENAI_API_KEY"
  let _ ← env.mk_embeddings key
  let _ ← env.mk_llm "gpt-4o-mini"
  let indexName ← envGet env.environ "INDEX_NAME"
  let _ ← env.mk_vectorstore indexName
  let _ ← env.hub_pull "langchain-ai/retrieval-qa-chat"
  let result ← env.retrieval_invoke message
  let _answer ← dictGet result "answer"
  let result2 ← env.rag_invoke rag_template message
  pure result2.content

/-- `def reply_to_message(message)` declares exactly one positional parameter. -/
def replyToMessageParamCount : Nat := 1

/-- A Python call of `reply_to_message` with a positional argument list:
argument binding raises `TypeError` before the body runs unless exactly
`replyToMessageParamCount` arguments are supplied. -/
def call_reply_to_message (env : ChatEnv) (args : List PyVal) : Except PyErr PyVal :=
  match args with
  | [message] => reply_to_message env message
  | _ => .error .typeError

/-! ### Controllers and app wiring -/

/-- Python `int(request.args.get(key, default))` with an integer default:
`int()` on the parameter string when present (maybe `ValueError`), the default
itself otherwise. -/
def pyIntArgD (args : List (String × String)) (key : String) (dflt : Int) : Except PyErr Int :=
  match argsGet? args key with
  | some s => pyInt s
  | Option.none => .ok dflt

/-- A Flask view function in this repository, identified by defining file. -/
inductive Handler where
  | index
  | upper_get_posts
  | upper_get_post_by_id
  | lower_get_posts
  | lower_get_post_by_id
  | lower_chat
deriving Repr, DecidableEq

/-- A registered URL rule: HTTP method, full path pattern (blueprint
`url_prefix` included), and the view function. -/
structure Route where
  method : String
  path : String
  handler : Handler
deriving Repr, DecidableEq

/-- The blueprint objects the repository creates. -/
inductive BlueprintId where
  | reddit_blueprint
  | post_controller_upper
  | post_controller_lower
deriving Repr, DecidableEq

/-- The arguments `create_reddit_loader` hands the Reddit loader (it also
fixes `mode="subreddit"` and `search_queries=[subreddit]`). -/
structure LoaderArgs where
  subreddit : String
  categories : List String
  number_posts : Int
deriving Repr, DecidableEq

/-- A praw submission as the handlers read it: `title`, `selftext`, and
`comments.list()` — each comment with its `body` and whether it has a `body`
attribute at all (`MoreComments` objects do not). -/
structure CommentObj where
  has_body : Bool
  body : PyVal

/-- See `CommentObj`. -/
structure Submission where
  title : PyVal
  selftext : PyVal
  comments : List CommentObj

/-- Oracle environment for the listing route: `os.environ` (read by
`create_reddit_loader`) and `loader.load()` keyed by the loader arguments. -/
structure PostsEnv where
  environ : List (String × String)
  load : LoaderArgs → Except PyErr (List Document)

/-- Oracle environment for the single-post route: `os.environ` (read by
`create_reddit_instance`), `reddit.submission(id=...)` together with the
attribute fetches on it, and the `embed_post` environment. -/
structure RedditEnv where
  environ : List (String × String)
  submission : PyVal → Except PyErr Submission
  embed : EmbedEnv

namespace PostController

/-- `PostController.py::get_reddit_posts` (the handler `create_app` serves):
reads `subreddit` (default `'wallstreetbets'`), `categories` (default `'hot'`,
split on commas) and `int(request.args.get('number_posts', 10))`, builds the
loader via `create_reddit_loader` (which reads the three Reddit credentials),
loads the documents, and returns the JSON list of
`create_post_summary_from_document(doc).to_dict()`. The loader arguments are
returned alongside the body, for reasoning about what was requested. -/
def get_reddit_posts (env : PostsEnv) (args : List (String × String)) :
    Except PyErr (LoaderArgs × PyVal) := do
  let subreddit := argsGetD args "subreddit" "wallstreetbets"
  let categories := pySplitComma (argsGetD args "categories" "hot")
  let number_posts ← pyIntArgD args "number_posts" 10
  let _ ← envGet env.environ "REDDIT_CLIENT_ID"
  let _ ← envGet env.environ "REDDIT_CLIENT_SECRET"
  let _ ← envGet env.environ "REDDIT_USER_AGENT"
  let la : LoaderArgs := ⟨subreddit, categories, number_posts⟩
  let documents ← env.load la
  let posts ← documents.mapM
    (fun doc => (create_post_summary_from_document doc).map (fun p => PyVal.dict p.to_dict))
  pure (la, .list posts)

/-- The post dict literal both single-post handlers build from the fetched
submission before calling `create_post(**post)`. -/
def postDictOf (post_id : PyVal) (s : Submission) : List (String × PyVal) :=
  [("post_id", post_id), ("post_title", s.title), ("post_body", s.selftext),
   ("post_comments", .list (((s.comments.filter (fun c => c.has_body)).map (fun c => c.body))))]

/-- `PostController.py::get_reddit_post_by_id` (the handler `create_app`
serves): `post_id` arrives as a path segment of `/reddit/post/<post_id>`.
Creates the praw client (reading the three credentials), fetches the
submission, collects the bodies of comments that have a `body` attribute,
builds the post dict, runs it through `create_post`, embeds
`post.to_dict()`, and returns `jsonify(post.to_dict())`. -/
def get_reddit_post_by_id (env : RedditEnv) (post_id : String) : Except PyErr PyVal := do
  let _ ← envGet env.environ "REDDIT_CLIENT_ID"
  let _ ← envGet env.environ "REDDIT_CLIENT_SECRET"
  let _ ← envGet env.environ "REDDIT_USER_AGENT"
  let s ← env.submission (.str post_id)
  let post := create_post (postDictOf (.str post_id) s)
  let _ ← embed_post env.embed post.to_dict
  pure (.dict post.to_dict)

/-- The URL rules of `PostController.py`'s blueprint
(`url_prefix='/reddit'`): `GET /posts` and `GET /post/<post_id>`. -/
def routes : List Route :=
  [⟨"GET", "/reddit/posts", .upper_get_posts⟩,
   ⟨"GET", "/reddit/post/<post_id>", .upper_get_post_by_id⟩]

end PostController

namespace post_controller

/-- `post_controller.py::get_reddit_posts`: identical to the
`PostController.py` version except that the count comes from
`int(request.args.get('limit', 10))`. This blueprint is never registered. -/
def get_reddit_posts (env : PostsEnv) (args : List (String × String)) :
    Except PyErr (LoaderArgs × PyVal) := do
  let subreddit := argsGetD args "subreddit" "wallstreetbets"
  let categories := pySplitComma (argsGetD args "categories" "hot")
  let number_posts ← pyIntArgD args "limit" 10
  let _ ← envGet env.environ "REDDIT_CLIENT_ID"
  let _ ← envGet env.environ "REDDIT_CLIENT_SECRET"
  let _ ← envGet env.environ "REDDIT_USER_AGENT"
  let la : LoaderArgs := ⟨subreddit, categories, number_posts⟩
  let documents ← env.load la
  let posts ← documents.mapM
    (fun doc => (create_post_summary_from_document doc).map (fun p => PyVal.dict p.to_dict))
  pure (la, .list posts)

/-- `post_controller.py::get_reddit_post_by_id`: identical to the
`PostController.py` version except that `post_id` is
`request.args.get('post_id')` (so `None` when the query parameter is absent).
This blueprint is never registered. -/
def get_reddit_post_by_id (env : RedditEnv) (args : List (String × String)) :
    Except PyErr PyVal := do
  let post_id : PyVal := match argsGet? args "post_id" with
    | some s => .str s
    | Option.none => .none
  let _ ← envGet env.environ "REDDIT_CLIENT_ID"
  let _ ← envGet env.environ "REDDIT_CLIENT_SECRET"
  let _ ← envGet env.environ "REDDIT_USER_AGENT"
  let s ← env.submission post_id
  let post := create_post (PostController.postDictOf post_id s)
  let _ ← embed_post env.embed post.to_dict
  pure (.dict post.to_dict)

/-- `post_controller.py::chat_with_post`: reads `post_id` (unused), `message`
and `chat_history` (default `[]`) from the JSON body, calls
`reply_to_message(message, chat_history)` — two positional arguments — and
returns `jsonify({'response': response})`. -/
def chat_with_post (env : ChatEnv) (data : List (String × PyVal)) :
    Except PyErr (List (String × PyVal)) := do
  let _post_id := dictGetD data "post_id" .none
  let message := dictGetD data "message" .none
  let chat_history := dictGetD data "chat_history" (.list [])
  let response ← call_reply_to_message env [message, chat_history]
  pure [("response", response)]

/-- The URL rules of `post_controller.py`'s blueprint
(`url_prefix='/reddit'`): `GET /posts`, `GET /post`, `POST /chat`. -/
def routes : List Route :=
  [⟨"GET", "/reddit/posts", .lower_get_posts⟩,
   ⟨"GET", "/reddit/post", .lower_get_post_by_id⟩,
   ⟨"POST", "/reddit/chat", .lower_chat⟩]

end post_controller

/-- The URL rules of `reddit_bp` (`app/reddit_app/__init__.py`): `GET /`. -/
def reddit_bp_routes : List Route := [⟨"GET", "/", .index⟩]

/-- The blueprints `create_app` registers: `reddit_bp` and the
`post_controller_bp` imported from `PostController.py`. `post_controller.py`'s
blueprint is imported in `app/reddit_app/__init__.py` but never registered. -/
def create_app_registered : List BlueprintId :=
  [.reddit_blueprint, .post_controller_upper]

/-- The URL map of the app `create_app` returns: the rules of the two
registered blueprints. -/
def create_app_routes : List Route :=
  reddit_bp_routes ++ PostController.routes

/-! ### Small lemmas and concrete fixtures -/

/-- `.ok` on the left of a bind reduces to the continuation. -/
theorem ok_bind {ε α β : Type} {a : α} {f : α → Except ε β} :
    ((Except.ok a : Except ε α) >>= f) = f a := rfl

/-- `dictGet` succeeds exactly on the keys `dictFind?` finds. -/
theorem dictGet_ok {d : List (String × PyVal)} {k : String} {v : PyVal} :
    dictGet d k = .ok v ↔ dictFind? d k = some v := by
  unfold dictGet
  cases dictFind? d k <;> simp

/-- The combined text `embed_post` builds from a post dict whose `title`,
`body` and `comments` keys are present (`dictGetD` with any default then
agrees with the raising subscripts the source uses). -/
def embed_content (post : List (String × PyVal)) (joined : String) : String :=
  "Title: " ++ pyStr (dictGetD post "title" .none) ++ "\nBody: " ++
    pyStr (dictGetD post "body" .none) ++ "\nComments: " ++ joined

/-- Environment variables all five credentials set. -/
def environ0 : List (String × String) :=
  [("REDDIT_CLIENT_ID", "cid"), ("REDDIT_CLIENT_SECRET", "csec"),
   ("REDDIT_USER_AGENT", "ua"), ("OPENAI_API_KEY", "sk-test"),
   ("INDEX_NAME", "reddit-index")]

/-- An embed environment where every SDK call succeeds and the index is empty;
the splitter returns the whole text as one chunk. -/
def embedEnv0 : EmbedEnv :=
  { environ := environ0,
    mk_embeddings := fun _ => .ok (),
    from_existing_index := fun _ => .ok (),
    describe_stats := .ok 0,
    delete_all := .ok (),
    split_text := fun s => .ok [s],
    add_documents := fun _ => .ok () }

/-- Like `embedEnv0` but the index already holds three vectors. -/
def embedEnvDel : EmbedEnv := { embedEnv0 with describe_stats := .ok 3 }

/-- Like `embedEnv0` with `OPENAI_API_KEY` unset. -/
def embedEnvNoKey : EmbedEnv :=
  { embedEnv0 with environ := [("INDEX_NAME", "reddit-index")] }

/-- Like `embedEnv0` but `OpenAIEmbeddings(...)` raises. -/
def embedEnvMkFail : EmbedEnv :=
  { embedEnv0 with mk_embeddings := fun _ => .error (.sdkError "OpenAIEmbeddings") }

/-- Like `embedEnv0` but `PineconeVectorStore.from_existing_index` raises. -/
def embedEnvFeiFail : EmbedEnv :=
  { embedEnv0 with from_existing_index := fun _ => .error (.sdkError "from_existing_index") }

/-- Like `embedEnv0` but `describe_index_stats()` raises. -/
def embedEnvStatsFail : EmbedEnv :=
  { embedEnv0 with describe_stats := .error (.sdkError "describe_index_stats") }

/-- Like `embedEnv0` but the index holds one vector and `index.delete` raises. -/
def embedEnvDeleteFail : EmbedEnv :=
  { embedEnv0 with describe_stats := .ok 1, delete_all := .error (.sdkError "delete") }

/-- Like `embedEnv0` but `split_text` raises. -/
def embedEnvSplitFail : EmbedEnv :=
  { embedEnv0 with split_text := fun _ => .error (.sdkError "split_text") }

/-- Like `embedEnv0` but `index.add_documents` raises. -/
def embedEnvAddFail : EmbedEnv :=
  { embedEnv0 with add_documents := fun _ => .error (.sdkError "add_documents") }

/-- A concrete serialized post, as `embed_post` receives it. -/
def postDict0 : List (String × PyVal) :=
  [("post_id", .str "t3_1"), ("title", .str "T"), ("upvotes", .int 5),
   ("username", .str "u"), ("body", .str "B"),
   ("comments", .list [.str "c1", .str "c2"])]

/-- The text `embed_post` builds from `postDict0`. -/
def content0 : String := "Title: T\nBody: B\nComments: c1 c2"

/-- The SDK call trace of `embed_post embedEnv0 postDict0`. -/
def trace0 : List SdkCall :=
  [.mkEmbeddings, .fromExistingIndex "reddit-index", .describeIndexStats,
   .splitText content0, .addDocuments [⟨content0, .int 5, .str "T"⟩]]

/-- The SDK call trace of `embed_post embedEnvDel postDict0` (non-empty index,
so the delete step runs). -/
def traceDel : List SdkCall :=
  [.mkEmbeddings, .fromExistingIndex "reddit-index", .describeIndexStats,
   .deleteAll, .splitText content0, .addDocuments [⟨content0, .int 5, .str "T"⟩]]

/-- A posts environment whose loader returns no documents. -/
def postsEnv0 : PostsEnv := { environ := environ0, load := fun _ => .ok [] }

/-- A posts environment whose loader raises. -/
def postsEnvLoadFail : PostsEnv :=
  { environ := environ0, load := fun _ => .error (.sdkError "load") }

/-- A concrete fetched submission: two comments, one of them a
`MoreComments`-style object without a `body` attribute. -/
def submission0 : Submission :=
  ⟨.str "T", .str "B", [⟨true, .str "c1"⟩, ⟨false, .none⟩, ⟨true, .str "c2"⟩]⟩

/-- A single-post environment where every SDK call succeeds. -/
def redditEnv0 : RedditEnv :=
  { environ := environ0, submission := fun _ => .ok submission0, embed := embedEnv0 }

/-- Like `redditEnv0` but `reddit.submission` raises. -/
def redditEnvSubFail : RedditEnv :=
  { redditEnv0 with submission := fun _ => .error (.sdkError "submission") }

/-- Like `redditEnv0` but the vector-store upsert inside `embed_post` raises. -/
def redditEnvEmbedFail : RedditEnv := { redditEnv0 with embed := embedEnvAddFail }

/-- A chat environment where every SDK call succeeds. -/
def chatEnv0 : ChatEnv :=
  { environ := environ0,
    mk_embeddings := fun _ => .ok (),
    mk_llm := fun _ => .ok (),
    mk_vectorstore := fun _ => .ok (),
    hub_pull := fun _ => .ok (),
    retrieval_invoke := fun _ => .ok [("input", .str "q"), ("answer", .str "a")],
    rag_invoke := fun _ _ => .ok ⟨.str "reply"⟩ }

/-- A concrete loader document with the metadata keys the loader emits. -/
def doc0 : Document :=
  { page_content := "body text",
    metadata := [("post_subreddit", .str "wallstreetbets"), ("post_category", .str "hot"),
                 ("post_title", .str "T"), ("post_score", .int 5),
                 ("post_id", .str "t3_1"), ("post_author", .str "alice")] }

/-! ### Claims -/

/-- C1: the spec claims the HTTP surface includes `POST /reddit/chat`
accepting `{post_id, message, chat_history}` and returning `{response}` with
the reply generated by `reply_to_message`. Evaluated on the code: the app
built by `create_app` has no `/reddit/chat` rule — the only blueprint defining
one, `post_controller.py`'s, is never registered — and the handler itself
raises `TypeError` on every request because it passes two positional arguments
(`message`, `chat_history`) to the one-parameter `reply_to_message`, so it
never returns `{response}`. -/
theorem c1_chat_route_missing_and_handler_raises :
    "/reddit/chat" ∉ create_app_routes.map Route.path ∧
    Route.mk "POST" "/reddit/chat" Handler.lower_chat ∈ post_controller.routes ∧
    BlueprintId.post_controller_lower ∉ create_app_registered ∧
    post_controller.chat_with_post chatEnv0
      [("post_id", .str "t3_abc"), ("message", .str "hi"), ("chat_history", .list [])] =
      .error .typeError :=
  ⟨by decide, by decide, by decide, rfl⟩

/-- C2 counterexample: the `GET /reddit/posts` handler the app actually
serves (`PostController.py`'s) ignores a `limit=5` query parameter and asks
the loader for the default 10 posts, so the count is not taken from `limit`. -/
theorem c2_counterexample :
    Route.mk "GET" "/reddit/posts" Handler.upper_get_posts ∈ create_app_routes ∧
    Route.mk "GET" "/reddit/posts" Handler.lower_get_posts ∉ create_app_routes ∧
    PostController.get_reddit_posts postsEnv0 [("limit", "5")] =
      .ok (⟨"wallstreetbets", ["hot"], 10⟩, PyVal.list []) ∧
    (10 : Int) ≠ 5 :=
  ⟨by decide, by decide, rfl, by decide⟩

/-- C2 as amended: the registered listing handler takes the number of posts
from the query parameter `number_posts` (default 10); the parameter named
`limit` is read only by the identical but unregistered handler in
`post_controller.py`. -/
theorem c2_corrected :
    (∀ env args la js, PostController.get_reddit_posts env args = .ok (la, js) →
      pyIntArgD args "number_posts" 10 = .ok la.number_posts) ∧
    (∀ env args la js, post_controller.get_reddit_posts env args = .ok (la, js) →
      pyIntArgD args "limit" 10 = .ok la.number_posts) := by
  constructor
  · intro env args la js h
    unfold PostController.get_reddit_posts at h
    rw [ebind_ok] at h; obtain ⟨n, hn, h⟩ := h
    rw [ebind_ok] at h; obtain ⟨_, _, h⟩ := h
    rw [ebind_ok] at h; obtain ⟨_, _, h⟩ := h
    rw [ebind_ok] at h; obtain ⟨_, _, h⟩ := h
    rw [ebind_ok] at h; obtain ⟨docs, _, h⟩ := h
    rw [ebind_ok] at h; obtain ⟨posts, _, h⟩ := h
    simp only [pure, Except.pure, Except.ok.injEq, Prod.mk.injEq] at h
    obtain ⟨h1, _⟩ := h
    subst h1
    simpa using hn
  · intro env args la js h
    unfold post_controller.get_reddit_posts at h
    rw [ebind_ok] at h; obtain ⟨n, hn, h⟩ := h
    rw [ebind_ok] at h; obtain ⟨_, _, h⟩ := h
    rw [ebind_ok] at h; obtain ⟨_, _, h⟩ := h
    rw [ebind_ok] at h; obtain ⟨_, _, h⟩ := h
    rw [ebind_ok] at h; obtain ⟨docs, _, h⟩ := h
    rw [ebind_ok] at h; obtain ⟨posts, _, h⟩ := h
    simp only [pure, Except.pure, Except.ok.injEq, Prod.mk.injEq] at h
    obtain ⟨h1, _⟩ := h
    subst h1
    simpa using hn

/-- C2 witness: with `number_posts=7` the registered handler requests 7 posts,
and with `limit=7` the unregistered `post_controller.py` handler requests 7. -/
theorem c2_witness :
    PostController.get_reddit_posts postsEnv0 [("number_posts", "7")] =
      .ok (⟨"wallstreetbets", ["hot"], 7⟩, PyVal.list []) ∧
    pyIntArgD [("number_posts", "7")] "number_posts" 10 =
      .ok (LoaderArgs.mk "wallstreetbets" ["hot"] 7).number_posts ∧
    post_controller.get_reddit_posts postsEnv0 [("limit", "7")] =
      .ok (⟨"wallstreetbets", ["hot"], 7⟩, PyVal.list []) ∧
    pyIntArgD [("limit", "7")] "limit" 10 =
      .ok (LoaderArgs.mk "wallstreetbets" ["hot"] 7).number_posts :=
  ⟨rfl,
   c2_corrected.1 postsEnv0 [("number_posts", "7")] ⟨"wallstreetbets", ["hot"], 7⟩ (PyVal.list []) rfl,
   rfl,
   c2_corrected.2 postsEnv0 [("limit", "7")] ⟨"wallstreetbets", ["hot"], 7⟩ (PyVal.list []) rfl⟩

/-- C3 counterexample: the app built by `create_app` has no `GET /reddit/post`
rule at all — the registered single-post rule is `/reddit/post/<post_id>`, so
the identifier cannot be supplied as a query parameter on `/reddit/post`. -/
theorem c3_counterexample :
    "/reddit/post" ∉ create_app_routes.map Route.path ∧
    Route.mk "GET" "/reddit/post/<post_id>" Handler.upper_get_post_by_id ∈ create_app_routes :=
  ⟨by decide, by decide⟩

/-- C3 as amended: the app's single-post endpoint is
`GET /reddit/post/<post_id>`, with the identifier as a path segment; the
`GET /reddit/post` rule whose handler reads the `post_id` query parameter
exists only on the `post_controller.py` blueprint, which is never registered. -/
theorem c3_corrected :
    Route.mk "GET" "/reddit/post/<post_id>" Handler.upper_get_post_by_id ∈ create_app_routes ∧
    "/reddit/post" ∉ create_app_routes.map Route.path ∧
    Route.mk "GET" "/reddit/post" Handler.lower_get_post_by_id ∈ post_controller.routes ∧
    BlueprintId.post_controller_lower ∉ create_app_registered := by
  decide

/-- C7: a `Post` constructed from any six field values serializes via
`to_dict` to the dictionary with exactly the six keys `post_id`, `title`,
`upvotes`, `username`, `body`, `comments`, each mapped to the value the `Post`
was constructed with. -/
theorem c7_confirmed : ∀ i t u un b c : PyVal,
    (Post.mk i t u un b c).to_dict =
      [("post_id", i), ("title", t), ("upvotes", u), ("username", un),
       ("body", b), ("comments", c)] ∧
    (Post.mk i t u un b c).to_dict.map Prod.fst =
      ["post_id", "title", "upvotes", "username", "body", "comments"] :=
  fun _ _ _ _ _ _ => ⟨rfl, rfl⟩

/-- C10 counterexample: the claim says the `Post` built by `create_post` has
no `None` field for every keyword-argument dictionary, but a `post_body` key
explicitly bound to `None` is passed through: the resulting post's `body` is
`None`. -/
theorem c10_counterexample :
    Post.hasNoneField (create_post [("post_body", PyVal.none)]) = true ∧
    ¬ (∀ kwargs, Post.hasNoneField (create_post kwargs) = false) := by
  refine ⟨rfl, fun h => ?_⟩
  have := h [("post_body", PyVal.none)]
  simp [create_post, dictGetD, dictFind?, Post.hasNoneField, PyVal.isNone] at this

/-- C10 as amended: `create_post` defaults every missing key — empty string
for `post_id`, `post_title`, `post_body` and (before `str()`) `post_author`,
`0` for `post_score`, the empty list for `post_comments` — and `username` is
always the string conversion of the `post_author` value; but a key explicitly
bound to `None` yields a `None` field, so only posts built from
`None`-free keyword dictionaries have no `None` field. -/
theorem c10_corrected : ∀ kwargs,
    (create_post kwargs).username = .str (pyStr (dictGetD kwargs "post_author" (.str ""))) ∧
    (dictFind? kwargs "post_id" = Option.none → (create_post kwargs).post_id = .str "") ∧
    (dictFind? kwargs "post_title" = Option.none → (create_post kwargs).title = .str "") ∧
    (dictFind? kwargs "post_score" = Option.none → (create_post kwargs).upvotes = .int 0) ∧
    (dictFind? kwargs "post_author" = Option.none → (create_post kwargs).username = .str "") ∧
    (dictFind? kwargs "post_body" = Option.none → (create_post kwargs).body = .str "") ∧
    (dictFind? kwargs "post_comments" = Option.none → (create_post kwargs).comments = .list []) := by
  intro kwargs
  refine ⟨rfl, fun h => ?_, fun h => ?_, fun h => ?_, fun h => ?_, fun h => ?_, fun h => ?_⟩ <;>
    simp [create_post, dictGetD, h, pyStr]

/-- C10 witness: `create_post` on the empty keyword dictionary fills every
field with its default. -/
theorem c10_witness :
    (create_post []).username = .str "" ∧
    (create_post []).post_id = .str "" ∧
    (create_post []).title = .str "" ∧
    (create_post []).upvotes = .int 0 ∧
    (create_post []).body = .str "" ∧
    (create_post []).comments = .list [] :=
  ⟨(c10_corrected []).1, (c10_corrected []).2.1 rfl, (c10_corrected []).2.2.1 rfl,
   (c10_corrected []).2.2.2.1 rfl, (c10_corrected []).2.2.2.2.2.1 rfl,
   (c10_corrected []).2.2.2.2.2.2 rfl⟩

/-- C8: every post summary `create_post_summary_from_document` builds from a
loader document has `body = None` and `comments = None`, its `username` is the
string conversion of the document's `post_author` metadata, and `post_id`,
`title`, `upvotes` are the `post_id`, `post_title`, `post_score` metadata —
so only those four fields carry document data. -/
theorem c8_confirmed : ∀ (doc : Document) (p : Post),
    create_post_summary_from_document doc = .ok p →
    p.body = PyVal.none ∧ p.comments = PyVal.none ∧
    p.username = .str (pyStr (dictGetD doc.metadata "post_author" PyVal.none)) ∧
    p.post_id = dictGetD doc.metadata "post_id" PyVal.none ∧
    p.title = dictGetD doc.metadata "post_title" PyVal.none ∧
    p.upvotes = dictGetD doc.metadata "post_score" PyVal.none := by
  intro doc p h
  simp only [create_post_summary_from_document] at h
  rw [ebind_ok] at h; obtain ⟨pid, h1, h⟩ := h
  rw [ebind_ok] at h; obtain ⟨title, h2, h⟩ := h
  rw [ebind_ok] at h; obtain ⟨score, h3, h⟩ := h
  rw [ebind_ok] at h; obtain ⟨author, h4, h⟩ := h
  simp only [pure, Except.pure, Except.ok.injEq] at h
  subst h
  exact ⟨rfl, rfl,
    by simp [dictGetD, dictGet_ok.mp h4],
    by simp [dictGetD, dictGet_ok.mp h1],
    by simp [dictGetD, dictGet_ok.mp h2],
    by simp [dictGetD, dictGet_ok.mp h3]⟩

/-- The summary `create_post_summary_from_document` builds from `doc0`. -/
def summary0 : Post := ⟨.str "t3_1", .str "T", .int 5, .str "alice", .none, .none⟩

/-- C8 witness: the concrete loader document `doc0` yields a summary with
`None` body and comments and `username = "alice"`. -/
theorem c8_witness :
    create_post_summary_from_document doc0 = .ok summary0 ∧
    (summary0.body = PyVal.none ∧ summary0.comments = PyVal.none ∧
     summary0.username = .str (pyStr (dictGetD doc0.metadata "post_author" PyVal.none)) ∧
     summary0.post_id = dictGetD doc0.metadata "post_id" PyVal.none ∧
     summary0.title = dictGetD doc0.metadata "post_title" PyVal.none ∧
     summary0.upvotes = dictGetD doc0.metadata "post_score" PyVal.none) :=
  ⟨rfl, c8_confirmed doc0 summary0 rfl⟩

/-- C9: whenever `embed_post` runs to completion (no dict subscript and no SDK
call raised), its boolean result is `True`; no input makes it return `False`. -/
theorem c9_confirmed : ∀ (env : EmbedEnv) (post : List (String × PyVal))
    (tr : List SdkCall) (b : Bool),
    embed_post env post = .ok (tr, b) → b = true := by
  intro env post tr b h
  simp only [embed_post] at h
  rw [ebind_ok] at h; obtain ⟨_, _, h⟩ := h
  rw [ebind_ok] at h; obtain ⟨_, _, h⟩ := h
  rw [ebind_ok] at h; obtain ⟨_, _, h⟩ := h
  rw [ebind_ok] at h; obtain ⟨_, _, h⟩ := h
  rw [ebind_ok] at h; obtain ⟨_, _, h⟩ := h
  rw [ebind_ok] at h; obtain ⟨_, _, h⟩ := h
  rw [ebind_ok] at h; obtain ⟨_, _, h⟩ := h
  rw [ebind_ok] at h; obtain ⟨_, _, h⟩ := h
  rw [ebind_ok] at h; obtain ⟨_, _, h⟩ := h
  rw [ebind_ok] at h; obtain ⟨_, _, h⟩ := h
  rw [ebind_ok] at h; obtain ⟨_, _, h⟩ := h
  rw [ebind_ok] at h; obtain ⟨_, _, h⟩ := h
  rw [ebind_ok] at h; obtain ⟨_, _, h⟩ := h
  simp only [pure, Except.pure, Except.ok.injEq, Prod.mk.injEq] at h
  exact h.2.symm

/-- C9 witness: on `embedEnv0` and `postDict0`, `embed_post` completes and
returns `True`. -/
theorem c9_witness :
    embed_post embedEnv0 postDict0 = .ok (trace0, true) ∧ true = true :=
  ⟨rfl, c9_confirmed embedEnv0 postDict0 trace0 true rfl⟩

/-- C6: whenever the registered single-post handler answers successfully, it
had fetched the submission (title, selftext, bodies of the comments that have
one), run `embed_post` successfully on the serialized post dictionary, and the
response body is exactly that same serialized post dictionary. -/
theorem c6_confirmed : ∀ (env : RedditEnv) (post_id : String) (resp : PyVal) (s : Submission),
    env.submission (.str post_id) = .ok s →
    PostController.get_reddit_post_by_id env post_id = .ok resp →
    resp = .dict (create_post (PostController.postDictOf (.str post_id) s)).to_dict ∧
    (embed_post env.embed
      (create_post (PostController.postDictOf (.str post_id) s)).to_dict).isOk = true := by
  intro env pid resp s hs h
  simp only [PostController.get_reddit_post_by_id] at h
  rw [ebind_ok] at h; obtain ⟨_, _, h⟩ := h
  rw [ebind_ok] at h; obtain ⟨_, _, h⟩ := h
  rw [ebind_ok] at h; obtain ⟨_, _, h⟩ := h
  rw [ebind_ok] at h; obtain ⟨s2, hs2, h⟩ := h
  rw [hs] at hs2
  injection hs2 with hss
  subst hss
  rw [ebind_ok] at h; obtain ⟨trb, hemb, h⟩ := h
  simp only [pure, Except.pure, Except.ok.injEq] at h
  exact ⟨h.symm, by rw [hemb]; rfl⟩

/-- The response body of the single-post handler on `redditEnv0` and id `abc`. -/
def resp0 : PyVal :=
  .dict (create_post (PostController.postDictOf (.str "abc") submission0)).to_dict

/-- C6 witness: on `redditEnv0`, fetching post `abc` succeeds, the serialized
post is embedded, and the response is that serialized post. -/
theorem c6_witness :
    redditEnv0.submission (.str "abc") = .ok submission0 ∧
    PostController.get_reddit_post_by_id redditEnv0 "abc" = .ok resp0 ∧
    (resp0 = .dict (create_post (PostController.postDictOf (.str "abc") submission0)).to_dict ∧
     (embed_post redditEnv0.embed
       (create_post (PostController.postDictOf (.str "abc") submission0)).to_dict).isOk = true) :=
  ⟨rfl, rfl, c6_confirmed redditEnv0 "abc" resp0 submission0 rfl rfl⟩

/-- C4 counterexample: on an index reporting three stored vectors,
`embed_post` completes successfully and its SDK call trace contains the
`index.delete(delete_all=True)` step — a step that deletes all existing
vectors, which the claim says does not exist. -/
theorem c4_counterexample :
    embed_post embedEnvDel postDict0 = .ok (traceDel, true) ∧
    SdkCall.deleteAll ∈ traceDel := by
  refine ⟨rfl, ?_⟩
  simp [traceDel]

/-- C4 as amended: `embed_post` performs the SDK call sequence — create the
embeddings client, open the existing index, read the index stats, delete all
existing vectors when the reported vector count is positive, split the
combined text into chunks, and add the embedded chunk documents to the store
(no query step of its own); so it does contain an eviction step, run exactly
when the index is non-empty. -/
theorem c4_corrected : ∀ (env : EmbedEnv) (post : List (String × PyVal))
    (tr : List SdkCall) (b : Bool) (idx : String) (cnt : Nat)
    (joined : String) (chunks : List String),
    envGet env.environ "INDEX_NAME" = .ok idx →
    env.describe_stats = .ok cnt →
    pyJoinSpace (dictGetD post "comments" .none) = .ok joined →
    env.split_text (embed_content post joined) = .ok chunks →
    embed_post env post = .ok (tr, b) →
    tr = [SdkCall.mkEmbeddings, SdkCall.fromExistingIndex idx, SdkCall.describeIndexStats]
          ++ (if cnt > 0 then [SdkCall.deleteAll] else [])
          ++ [SdkCall.splitText (embed_content post joined),
              SdkCall.addDocuments (chunks.map (fun c =>
                EmbDoc.mk c (dictGetD post "upvotes" .none) (dictGetD post "title" .none)))] := by
  intro env post tr b idx cnt joined chunks hidx hcnt hjoin hsplit h
  simp only [embed_post] at h
  rw [ebind_ok] at h; obtain ⟨key, hkey, h⟩ := h
  rw [ebind_ok] at h; obtain ⟨u1, hmk, h⟩ := h
  rw [ebind_ok] at h; obtain ⟨idx2, hidx2, h⟩ := h
  rw [ebind_ok] at h; obtain ⟨u2, hfei, h⟩ := h
  rw [ebind_ok] at h; obtain ⟨cnt2, hcnt2, h⟩ := h
  rw [ebind_ok] at h; obtain ⟨u3, hclear, h⟩ := h
  rw [ebind_ok] at h; obtain ⟨tv, htv, h⟩ := h
  rw [ebind_ok] at h; obtain ⟨bv, hbv, h⟩ := h
  rw [ebind_ok] at h; obtain ⟨cv, hcv, h⟩ := h
  rw [ebind_ok] at h; obtain ⟨jv, hjv, h⟩ := h
  rw [ebind_ok] at h; obtain ⟨chunks2, hch, h⟩ := h
  rw [ebind_ok] at h; obtain ⟨uv, huv, h⟩ := h
  rw [ebind_ok] at h; obtain ⟨u4, hadd, h⟩ := h
  simp only [pure, Except.pure, Except.ok.injEq, Prod.mk.injEq] at h
  obtain ⟨htr, _⟩ := h
  rw [hidx] at hidx2; injection hidx2 with e1; subst e1
  rw [hcnt] at hcnt2; injection hcnt2 with e2; subst e2
  have etv : dictGetD post "title" .none = tv := by
    simp [dictGetD, dictGet_ok.mp htv]
  have ebv : dictGetD post "body" .none = bv := by
    simp [dictGetD, dictGet_ok.mp hbv]
  have ecv : dictGetD post "comments" .none = cv := by
    simp [dictGetD, dictGet_ok.mp hcv]
  have euv : dictGetD post "upvotes" .none = uv := by
    simp [dictGetD, dictGet_ok.mp huv]
  rw [ecv] at hjoin
  rw [hjoin] at hjv; injection hjv with e3; subst e3
  have econtent :
      "Title: " ++ pyStr tv ++ "\nBody: " ++ pyStr bv ++ "\nComments: " ++ joined =
        embed_content post joined := by
    rw [embed_content, etv, ebv]
  rw [econtent] at hch htr
  rw [hsplit] at hch; injection hch with e4; subst e4
  rw [← htr, embed_content, etv, ebv, euv]

/-- C4 witness: on the three-vector index `embedEnvDel` and `postDict0`, the
trace is exactly the amended sequence, delete step included. -/
theorem c4_witness :
    envGet embedEnvDel.environ "INDEX_NAME" = .ok "reddit-index" ∧
    embedEnvDel.describe_stats = .ok 3 ∧
    pyJoinSpace (dictGetD postDict0 "comments" .none) = .ok "c1 c2" ∧
    embedEnvDel.split_text (embed_content postDict0 "c1 c2") =
      .ok [embed_content postDict0 "c1 c2"] ∧
    embed_post embedEnvDel postDict0 = .ok (traceDel, true) ∧
    traceDel = [SdkCall.mkEmbeddings, SdkCall.fromExistingIndex "reddit-index",
        SdkCall.describeIndexStats]
      ++ (if (3 : Nat) > 0 then [SdkCall.deleteAll] else [])
      ++ [SdkCall.splitText (embed_content postDict0 "c1 c2"),
          SdkCall.addDocuments ([embed_content postDict0 "c1 c2"].map (fun c =>
            EmbDoc.mk c (dictGetD postDict0 "upvotes" .none)
              (dictGetD postDict0 "title" .none)))] :=
  ⟨rfl, rfl, rfl, rfl, rfl,
   c4_corrected embedEnvDel postDict0 traceDel true "reddit-index" 3 "c1 c2"
     [embed_content postDict0 "c1 c2"] rfl rfl rfl rfl rfl⟩

/-- C5: the repository's handlers contain no `try`/`except` — when a reached
SDK call (or a built-in such as `int()` on a malformed query parameter)
raises, the very same exception is the handler's outcome and no response of
the handler's own is produced. One clause per failure point of `embed_post`
(API-key lookup, embeddings client, index open, index stats, delete, split,
upsert) and of the registered listing and single-post handlers (`int()`
conversion, loader, submission fetch, embedding). -/
theorem c5_confirmed :
    (∀ (env : EmbedEnv) (post : List (String × PyVal)) (e : PyErr),
      envGet env.environ "OPENAI_API_KEY" = .error e →
      embed_post env post = .error e) ∧
    (∀ (env : EmbedEnv) (post : List (String × PyVal)) (key : String) (e : PyErr),
      envGet env.environ "OPENAI_API_KEY" = .ok key →
      env.mk_embeddings key = .error e →
      embed_post env post = .error e) ∧
    (∀ (env : EmbedEnv) (post : List (String × PyVal)) (key idx : String) (e : PyErr),
      envGet env.environ "OPENAI_API_KEY" = .ok key →
      env.mk_embeddings key = .ok () →
      envGet env.environ "INDEX_NAME" = .ok idx →
      env.from_existing_index idx = .error e →
      embed_post env post = .error e) ∧
    (∀ (env : EmbedEnv) (post : List (String × PyVal)) (key idx : String) (e : PyErr),
      envGet env.environ "OPENAI_API_KEY" = .ok key →
      env.mk_embeddings key = .ok () →
      envGet env.environ "INDEX_NAME" = .ok idx →
      env.from_existing_index idx = .ok () →
      env.describe_stats = .error e →
      embed_post env post = .error e) ∧
    (∀ (env : EmbedEnv) (post : List (String × PyVal)) (key idx : String) (e : PyErr),
      envGet env.environ "OPENAI_API_KEY" = .ok key →
      env.mk_embeddings key = .ok () →
      envGet env.environ "INDEX_NAME" = .ok idx →
      env.from_existing_index idx = .ok () →
      env.describe_stats = .ok 1 →
      env.delete_all = .error e →
      embed_post env post = .error e) ∧
    (∀ (env : EmbedEnv) (post : List (String × PyVal)) (key idx : String)
       (tv bv cv : PyVal) (joined : String) (e : PyErr),
      envGet env.environ "OPENAI_API_KEY" = .ok key →
      env.mk_embeddings key = .ok () →
      envGet env.environ "INDEX_NAME" = .ok idx →
      env.from_existing_index idx = .ok () →
      env.describe_stats = .ok 0 →
      dictGet post "title" = .ok tv →
      dictGet post "body" = .ok bv →
      dictGet post "comments" = .ok cv →
      pyJoinSpace cv = .ok joined →
      env.split_text ("Title: " ++ pyStr tv ++ "\nBody: " ++ pyStr bv ++
        "\nComments: " ++ joined) = .error e →
      embed_post env post = .error e) ∧
    (∀ (env : EmbedEnv) (post : List (String × PyVal)) (key idx : String)
       (tv bv cv uv : PyVal) (joined : String) (chunks : List String) (e : PyErr),
      envGet env.environ "OPENAI_API_KEY" = .ok key →
      env.mk_embeddings key = .ok () →
      envGet env.environ "INDEX_NAME" = .ok idx →
      env.from_existing_index idx = .ok () →
      env.describe_stats = .ok 0 →
      dictGet post "title" = .ok tv →
      dictGet post "body" = .ok bv →
      dictGet post "comments" = .ok cv →
      pyJoinSpace cv = .ok joined →
      env.split_text ("Title: " ++ pyStr tv ++ "\nBody: " ++ pyStr bv ++
        "\nComments: " ++ joined) = .ok chunks →
      dictGet post "upvotes" = .ok uv →
      env.add_documents (chunks.map (fun chunk => EmbDoc.mk chunk uv tv)) = .error e →
      embed_post env post = .error e) ∧
    (∀ (env : PostsEnv) (args : List (String × String)) (s : String) (e : PyErr),
      argsGet? args "number_posts" = some s →
      pyInt s = .error e →
      PostController.get_reddit_posts env args = .error e) ∧
    (∀ (env : PostsEnv) (args : List (String × String)) (n : Int)
       (c1 c2 c3 : String) (e : PyErr),
      pyIntArgD args "number_posts" 10 = .ok n →
      envGet env.environ "REDDIT_CLIENT_ID" = .ok c1 →
      envGet env.environ "REDDIT_CLIENT_SECRET" = .ok c2 →
      envGet env.environ "REDDIT_USER_AGENT" = .ok c3 →
      env.load ⟨argsGetD args "subreddit" "wallstreetbets",
        pySplitComma (argsGetD args "categories" "hot"), n⟩ = .error e →
      PostController.get_reddit_posts env args = .error e) ∧
    (∀ (env : RedditEnv) (post_id : String) (c1 c2 c3 : String) (e : PyErr),
      envGet env.environ "REDDIT_CLIENT_ID" = .ok c1 →
      envGet env.environ "REDDIT_CLIENT_SECRET" = .ok c2 →
      envGet env.environ "REDDIT_USER_AGENT" = .ok c3 →
      env.submission (.str post_id) = .error e →
      PostController.get_reddit_post_by_id env post_id = .error e) ∧
    (∀ (env : RedditEnv) (post_id : String) (c1 c2 c3 : String)
       (s : Submission) (e : PyErr),
      envGet env.environ "REDDIT_CLIENT_ID" = .ok c1 →
      envGet env.environ "REDDIT_CLIENT_SECRET" = .ok c2 →
      envGet env.environ "REDDIT_USER_AGENT" = .ok c3 →
      env.submission (.str post_id) = .ok s →
      embed_post env.embed (create_post (PostController.postDictOf (.str post_id) s)).to_dict =
        .error e →
      PostController.get_reddit_post_by_id env post_id = .error e) := by
  refine ⟨?_, ?_, ?_, ?_, ?_, ?_, ?_, ?_, ?_, ?_, ?_⟩
  · intro env post e h1
    simp [embed_post, h1, ebind_err]
  · intro env post key e h1 h2
    simp [embed_post, h1, h2, ok_bind, ebind_err]
  · intro env post key idx e h1 h2 h3 h4
    simp [embed_post, h1, h2, h3, h4, ok_bind, ebind_err]
  · intro env post key idx e h1 h2 h3 h4 h5
    simp [embed_post, h1, h2, h3, h4, h5, ok_bind, ebind_err]
  · intro env post key idx e h1 h2 h3 h4 h5 h6
    simp [embed_post, clear_existing_vectors, h1, h2, h3, h4, h5, h6, ok_bind, ebind_err]
  · intro env post key idx tv bv cv joined e h1 h2 h3 h4 h5 h6 h7 h8 h9 h10
    simp [embed_post, clear_existing_vectors, h1, h2, h3, h4, h5, h6, h7, h8, h9,
      h10, ok_bind, ebind_err]
  · intro env post key idx tv bv cv uv joined chunks e h1 h2 h3 h4 h5 h6 h7 h8 h9 h10 h11 h12
    simp [embed_post, clear_existing_vectors, h1, h2, h3, h4, h5, h6, h7, h8, h9,
      h10, h11, h12, ok_bind, ebind_err]
  · intro env args s e h1 h2
    simp [PostController.get_reddit_posts, pyIntArgD, h1, h2, ebind_err]
  · intro env args n c1 c2 c3 e h1 h2 h3 h4 h5
    simp [PostController.get_reddit_posts, h1, h2, h3, h4, h5, ok_bind, ebind_err]
  · intro env pid c1 c2 c3 e h1 h2 h3 h4
    simp [PostController.get_reddit_post_by_id, h1, h2, h3, h4, ok_bind, ebind_err]
  · intro env pid c1 c2 c3 s e h1 h2 h3 h4 h5
    simp [PostController.get_reddit_post_by_id, h1, h2, h3, h4, h5, ok_bind, ebind_err]

/-- C5 witness: one concrete failing run per failure point — in each case the
handler's outcome is exactly the exception the failing call raised. -/
theorem c5_witness :
    embed_post embedEnvNoKey postDict0 = .error (.keyError "OPENAI_API_KEY") ∧
    embed_post embedEnvMkFail postDict0 = .error (.sdkError "OpenAIEmbeddings") ∧
    embed_post embedEnvFeiFail postDict0 = .error (.sdkError "from_existing_index") ∧
    embed_post embedEnvStatsFail postDict0 = .error (.sdkError "describe_index_stats") ∧
    embed_post embedEnvDeleteFail postDict0 = .error (.sdkError "delete") ∧
    embed_post embedEnvSplitFail postDict0 = .error (.sdkError "split_text") ∧
    embed_post embedEnvAddFail postDict0 = .error (.sdkError "add_documents") ∧
    PostController.get_reddit_posts postsEnv0 [("number_posts", "ten")] = .error .valueError ∧
    PostController.get_reddit_posts postsEnvLoadFail [] = .error (.sdkError "load") ∧
    PostController.get_reddit_post_by_id redditEnvSubFail "abc" = .error (.sdkError "submission") ∧
    PostController.get_reddit_post_by_id redditEnvEmbedFail "abc" =
      .error (.sdkError "add_documents") := by
  obtain ⟨p1, p2, p3, p4, p5, p6, p7, p8, p9, p10, p11⟩ := c5_confirmed
  exact ⟨p1 embedEnvNoKey postDict0 (.keyError "OPENAI_API_KEY") rfl,
    p2 embedEnvMkFail postDict0 "sk-test" (.sdkError "OpenAIEmbeddings") rfl rfl,
    p3 embedEnvFeiFail postDict0 "sk-test" "reddit-index" (.sdkError "from_existing_index")
      rfl rfl rfl rfl,
    p4 embedEnvStatsFail postDict0 "sk-test" "reddit-index" (.sdkError "describe_index_stats")
      rfl rfl rfl rfl rfl,
    p5 embedEnvDeleteFail postDict0 "sk-test" "reddit-index" (.sdkError "delete")
      rfl rfl rfl rfl rfl rfl,
    p6 embedEnvSplitFail postDict0 "sk-test" "reddit-index" (.str "T") (.str "B")
      (.list [.str "c1", .str "c2"]) "c1 c2" (.sdkError "split_text")
      rfl rfl rfl rfl rfl rfl rfl rfl rfl rfl,
    p7 embedEnvAddFail postDict0 "sk-test" "reddit-index" (.str "T") (.str "B")
      (.list [.str "c1", .str "c2"]) (.int 5) "c1 c2" [content0] (.sdkError "add_documents")
      rfl rfl rfl rfl rfl rfl rfl rfl rfl rfl rfl rfl,
    p8 postsEnv0 [("number_posts", "ten")] "ten" .valueError rfl rfl,
    p9 postsEnvLoadFail [] 10 "cid" "csec" "ua" (.sdkError "load") rfl rfl rfl rfl rfl,
    p10 redditEnvSubFail "abc" "cid" "csec" "ua" (.sdkError "submission") rfl rfl rfl rfl,
    p11 redditEnvEmbedFail "abc" "cid" "csec" "ua" submission0 (.sdkError "add_documents")
      rfl rfl rfl rfl rfl⟩
